import Mathlib

/-!
Verification of the strix_viz frontend core: the client-side state
synchronization and view-coordination engine.  The definitions below are a
shallow embedding of the TypeScript source: the entity model (`types.ts`),
the snapshot store and live-event ingestion of `App.tsx`, the terminal
filter pipeline of `TerminalView.tsx`, and the graph projection of
`GraphView.tsx`.  JavaScript `Date.now()` / `Math.random()` effects are
passed in as explicit parameters (`nowIso`, `freshId`); fetch completions
are modelled as explicit results applied to the current state.
-/

namespace StrixViz

/-- `toLowerCase` on one character (ASCII range, as in Lean's own
`Char.toLower`), written so that it evaluates in the kernel. -/
def charToLower (c : Char) : Char :=
  if 65 ≤ c.toNat ∧ c.toNat ≤ 90 then Char.ofNat (c.toNat + 32) else c

/-- `s.toLowerCase()`: lower-case every character. -/
def strToLower (s : String) : String :=
  ⟨s.data.map charToLower⟩

/-- Split a character list at every occurrence of the separator (the JS
`String.prototype.split` on a one-character separator). -/
def splitCharsAux (sep : Char) : List Char → List Char → List (List Char)
  | [], acc => [acc.reverse]
  | c :: rest, acc =>
      if c = sep then acc.reverse :: splitCharsAux sep rest []
      else splitCharsAux sep rest (c :: acc)

/-- `s.split(":", 2)[1]` in JS: the second colon-separated component, absent
when the string contains no colon. -/
def jsSplitSecond (s : String) : Option String :=
  ((splitCharsAux ':' s.data []).map String.mk)[1]?

/-- JS truthiness of a string (`""` is falsy). -/
def truthyString (s : String) : Bool := s != ""

/-- JS runtime value as far as the client inspects it: strings, numbers,
booleans, `null`, `undefined`, and objects (string-keyed records).  Used for
the untyped fields of a `LiveEvent` and for `ToolCall.args`
(`Record<string, unknown>`). -/
inductive JsVal where
  | str : String → JsVal
  | num : Int → JsVal
  | boolean : Bool → JsVal
  | jsNull : JsVal
  | undefined : JsVal
  | obj : List (String × JsVal) → JsVal

/-- `typeof v === "string" ? v : undefined` — yields the string when the
value is string-typed, nothing otherwise. -/
def JsVal.asString : JsVal → Option String
  | .str s => some s
  | _ => none

/-- `v && typeof v === "object" ? v : undefined` — yields the record fields
when the value is a truthy object (`null` is falsy, so it is excluded). -/
def JsVal.asTruthyObject : JsVal → Option (List (String × JsVal))
  | .obj fields => some fields
  | _ => none

/-- Entity model: `Agent` from `types.ts`. -/
structure Agent where
  id : String
  label : String
  first_seen : String
  last_seen : String
deriving DecidableEq

/-- Entity model: `Asset` from `types.ts`. -/
structure Asset where
  id : String
  label : String
  url : String
  first_seen : String
  last_seen : String
deriving DecidableEq

/-- Entity model: `Vulnerability` from `types.ts`; optional fields are
`Option`s (covering both `undefined` and `null`). -/
structure Vulnerability where
  id : String
  agent_id : Option String := none
  asset_id : Option String := none
  severity : Option String := none
  category : Option String := none
  description : Option String := none
  ts : String
deriving DecidableEq

/-- Entity model: `Edge` from `types.ts`; `source`/`target` are raw entity
ids. -/
structure Edge where
  id : String
  source : String
  target : String
  relation : String
  label : Option String := none
deriving DecidableEq

/-- Entity model: `ToolCall` from `types.ts`.  `args` is a string-keyed
record of JS values. -/
structure ToolCall where
  id : String
  ts : String
  agent_id : Option String := none
  tool : Option String := none
  target : Option String := none
  status : Option String := none
  summary : Option String := none
  args : List (String × JsVal) := []
  result_summary : Option String := none

/-- Entity model: `Snapshot` from `types.ts`. -/
structure Snapshot where
  run_id : String
  agents : List Agent := []
  assets : List Asset := []
  vulnerabilities : List Vulnerability := []
  edges : List Edge := []
  tool_calls : List ToolCall := []
  last_event_ts : Option String := none

/-- Entity model: `LiveEvent` from `types.ts` — a record with optional
`type`/`ts` plus untyped event-specific fields accessed through the index
signature. -/
structure LiveEvent where
  type : Option String := none
  ts : Option String := none
  agent_id : JsVal := .undefined
  tool : JsVal := .undefined
  target : JsVal := .undefined
  status : JsVal := .undefined
  summary : JsVal := .undefined
  result_summary : JsVal := .undefined
  args : JsVal := .undefined

/-- `mapEventToToolCall` from `App.tsx`.  The wall-clock fallback
`new Date().toISOString()` is the parameter `nowIso`; the generated opaque
id `live-<random>` is the parameter `freshId`.  Note the source copies
`event.result_summary` into both `summary` and `result_summary`. -/
def mapEventToToolCall (nowIso freshId : String) (event : LiveEvent) : ToolCall :=
  let now := event.ts.getD nowIso
  { id := freshId
    ts := now
    agent_id := event.agent_id.asString
    tool := event.tool.asString
    target := event.target.asString
    status := event.status.asString
    summary := event.result_summary.asString
    args := (event.args.asTruthyObject).getD []
    result_summary := event.result_summary.asString }

/-- `isSameToolCall` from `App.tsx`: the five-field natural dedup key. -/
def isSameToolCall (a b : ToolCall) : Bool :=
  a.ts == b.ts && a.agent_id == b.agent_id && a.tool == b.tool &&
    a.target == b.target && a.result_summary == b.result_summary

/-- The `setToolCalls` updater inside `socket.onmessage` in `App.tsx`:
append the incoming call unless an existing entry matches the dedup key. -/
def ingestToolCall (current : List ToolCall) (call : ToolCall) : List ToolCall :=
  if current.any (fun existing => isSameToolCall existing call) then current
  else current ++ [call]

/-- The `mcp_tool_call` branch of `socket.onmessage` in `App.tsx`: map the
event and ingest it; other event types leave the list unchanged. -/
def onLiveMessage (current : List ToolCall) (nowIso freshId : String)
    (event : LiveEvent) : List ToolCall :=
  if event.type == some "mcp_tool_call" then
    ingestToolCall current (mapEventToToolCall nowIso freshId event)
  else current

/-- `TerminalFilters` from `TerminalView.tsx`. -/
structure TerminalFilters where
  agentId : String
  tool : String
  onlyErrors : Bool
  onlySuccess : Bool
deriving DecidableEq

/-- `defaultTerminalFilters` from `App.tsx`. -/
def defaultTerminalFilters : TerminalFilters :=
  { agentId := "all", tool := "all", onlyErrors := false, onlySuccess := false }

/-- `(call.status ?? "").toLowerCase()` from `filteredCalls`. -/
def normalizedStatus (call : ToolCall) : String :=
  strToLower (call.status.getD "")

/-- `isError` from `filteredCalls` in `TerminalView.tsx`. -/
def isErrorCall (call : ToolCall) : Bool :=
  normalizedStatus call != "" && normalizedStatus call != "ok" &&
    normalizedStatus call != "success"

/-- `isSuccess` from `filteredCalls` in `TerminalView.tsx`. -/
def isSuccessCall (call : ToolCall) : Bool :=
  normalizedStatus call == "ok" || normalizedStatus call == "success"

/-- The per-call predicate of `filteredCalls` in `TerminalView.tsx`. -/
def passesTerminalFilters (filters : TerminalFilters) (call : ToolCall) : Bool :=
  if filters.agentId != "all" && call.agent_id != some filters.agentId then false
  else if filters.tool != "all" && call.tool != some filters.tool then false
  else if filters.onlyErrors && !(isErrorCall call) then false
  else if filters.onlySuccess && !(isSuccessCall call) then false
  else true

/-- `filteredCalls` from `TerminalView.tsx`. -/
def filteredCalls (filters : TerminalFilters) (calls : List ToolCall) : List ToolCall :=
  calls.filter (passesTerminalFilters filters)

/-- `GraphSelection.entityType` from `GraphView.tsx`. -/
inductive EntityType where
  | agent
  | asset
  | vuln
deriving DecidableEq

/-- `GraphSelection` from `GraphView.tsx`. -/
structure GraphSelection where
  id : String
  entityType : EntityType
deriving DecidableEq

/-- A rendered graph node (`ElementDefinition` data + classes) as built in
`GraphView.tsx`. -/
structure NodeElement where
  id : String
  label : String
  classes : String
deriving DecidableEq

/-- A rendered graph edge as built in `GraphView.tsx`. -/
structure EdgeElement where
  id : String
  source : String
  target : String
  label : String
deriving DecidableEq

/-- `shouldFadeAgent` from `GraphView.tsx`. -/
def shouldFadeAgent (agentFilter : String) (id : String) : Bool :=
  agentFilter != "all" && id != agentFilter

/-- `shouldFadeVuln` from `GraphView.tsx`: lower-cases the severity and
defaults a missing one to the sentinel "unknown". -/
def shouldFadeVuln (severityFilter : String) (severity : Option String) : Bool :=
  if severityFilter == "all" then false
  else ((severity.map strToLower).getD "unknown") != severityFilter

/-- The severity the vulnerability node loop computes before pushing the
node: `vuln.severity?.toLowerCase() ?? "low"`. -/
def vulnNodeSeverity (v : Vulnerability) : String :=
  (v.severity.map strToLower).getD "low"

/-- The agent node built by the `agents.forEach` loop in `GraphView.tsx`. -/
def projectAgentNode (agentFilter : String) (a : Agent) : NodeElement :=
  { id := "agent:" ++ a.id
    label := a.label
    classes := "agent" ++ (if shouldFadeAgent agentFilter a.id then " faded" else "") }

/-- The asset node built by the `assets.forEach` loop in `GraphView.tsx`. -/
def projectAssetNode (a : Asset) : NodeElement :=
  { id := "asset:" ++ a.id, label := a.label, classes := "asset" }

/-- The vulnerability node built by the `vulns.forEach` loop in
`GraphView.tsx`: the severity passed to `shouldFadeVuln` is the already
lower-cased, "low"-defaulted `vulnNodeSeverity`. -/
def projectVulnNode (severityFilter : String) (v : Vulnerability) : NodeElement :=
  let severity := vulnNodeSeverity v
  { id := "vuln:" ++ v.id
    label := v.id
    classes := "vuln" ++ (if shouldFadeVuln severityFilter (some severity) then " faded" else "") }

/-- All nodes of the projection, in the source's push order (agents, then
assets, then vulnerabilities); entity ids are unique within each collection,
so the `Map`s of the source coincide with the lists. -/
def projectNodes (snap : Snapshot) (agentFilter severityFilter : String) : List NodeElement :=
  snap.agents.map (projectAgentNode agentFilter)
    ++ snap.assets.map projectAssetNode
    ++ snap.vulnerabilities.map (projectVulnNode severityFilter)

/-- The endpoint rewriting closure in `GraphView.tsx`: resolve against the
agent, vulnerability, then asset id sets, in that order; an id found in none
of them is returned unchanged. -/
def prefixId (snap : Snapshot) (id : String) : String :=
  if snap.agents.any (fun a => a.id == id) then "agent:" ++ id
  else if snap.vulnerabilities.any (fun v => v.id == id) then "vuln:" ++ id
  else if snap.assets.any (fun a => a.id == id) then "asset:" ++ id
  else id

/-- The edge projection of `GraphView.tsx`: rewrite both endpoints, then
keep edges whose endpoints are truthy (non-empty) strings. -/
def projectEdges (snap : Snapshot) : List EdgeElement :=
  (snap.edges.map (fun e =>
      ({ id := e.id
         source := prefixId snap e.source
         target := prefixId snap e.target
         label := e.label.getD e.relation } : EdgeElement))).filter
    (fun e => truthyString e.source && truthyString e.target)

/-- The highlight effect in `GraphView.tsx`: all `highlighted` classes are
removed, then the node whose id equals `highlightedNodeId` (when the id is
truthy) receives the class; the result is the list of highlighted nodes.  A
missing node simply yields no highlighted node. -/
def highlightedNodes (nodes : List NodeElement) (highlightedNodeId : Option String) :
    List NodeElement :=
  match highlightedNodeId with
  | none => []
  | some h => if h = "" then [] else nodes.filter (fun n => n.id == h)

/-- The `App` component state (`useState` hooks in `App.tsx`). -/
structure AppState where
  selectedRun : String
  snapshot : Option Snapshot
  loading : Bool
  error : Option String
  toolCalls : List ToolCall
  terminalFilters : TerminalFilters
  agentFilter : String
  severityFilter : String
  timeRange : String
  selectedNode : Option GraphSelection
  highlightedNodeId : Option String
  assetTerminalFilter : Option String

/-- The initial values of the `useState` hooks in `App.tsx`. -/
def initialAppState : AppState :=
  { selectedRun := ""
    snapshot := none
    loading := false
    error := none
    toolCalls := []
    terminalFilters := defaultTerminalFilters
    agentFilter := "all"
    severityFilter := "all"
    timeRange := "all"
    selectedNode := none
    highlightedNodeId := none
    assetTerminalFilter := none }

/-- JS truthiness of an optional string (`undefined`, `null` and `""` are
falsy). -/
def truthyStr : Option String → Bool
  | some s => truthyString s
  | none => false

/-- `handleNodeSelect` from `App.tsx`: the selection coordinator's
transition for a graph node selection or a deselect (`null`). -/
def handleNodeSelect (st : AppState) (selection : Option GraphSelection) : AppState :=
  match selection with
  | none =>
      { st with selectedNode := none, highlightedNodeId := none,
                assetTerminalFilter := none }
  | some sel =>
      let st1 := { st with selectedNode := some sel, highlightedNodeId := some sel.id }
      match sel.entityType with
      | .agent =>
          let rawId := jsSplitSecond sel.id
          { st1 with
              agentFilter := rawId.getD "all"
              terminalFilters := { st1.terminalFilters with agentId := rawId.getD "all" }
              assetTerminalFilter := none }
      | .asset =>
          let rawId := jsSplitSecond sel.id
          { st1 with assetTerminalFilter := rawId }
      | .vuln =>
          let rawId := jsSplitSecond sel.id
          match ((st1.snapshot.map Snapshot.vulnerabilities).getD []).find?
              (fun candidate => candidate.id == rawId.getD "") with
          | none => st1
          | some v =>
              let st2 :=
                if truthyStr v.asset_id then { st1 with assetTerminalFilter := v.asset_id }
                else st1
              if truthyStr v.agent_id then
                { st2 with terminalFilters :=
                    { st2.terminalFilters with agentId := v.agent_id.getD "all" } }
              else st2

/-- `handleTerminalSelect` from `App.tsx`: derive a highlight from a
terminal row, preferring the call's (truthy) target over its agent. -/
def handleTerminalSelect (st : AppState) (call : ToolCall) : AppState :=
  if truthyStr call.target then
    { st with highlightedNodeId := some ("asset:" ++ call.target.getD "") }
  else if truthyStr call.agent_id then
    { st with highlightedNodeId := some ("agent:" ++ call.agent_id.getD "") }
  else st

/-- `handleRunChange` from `App.tsx`: switch the selected run and reset the
derived filters. -/
def handleRunChange (st : AppState) (value : String) : AppState :=
  { st with
      selectedRun := value
      terminalFilters := defaultTerminalFilters
      agentFilter := "all"
      severityFilter := "all"
      assetTerminalFilter := none }

/-- Outcome of the snapshot fetch inside `loadSnapshot`. -/
inductive FetchResult where
  | ok : Snapshot → FetchResult
  | httpError : Nat → String → FetchResult
  | networkError : String → FetchResult

/-- The synchronous prefix of `loadSnapshot` in `App.tsx`, executed before
the fetch suspends: raise the loading flag and clear the error. -/
def loadSnapshotStart (st : AppState) : AppState :=
  { st with loading := true, error := none }

/-- The continuation of `loadSnapshot` in `App.tsx`, applied to whatever
state is current when the fetch settles: on success replace the snapshot and
re-seed the tool calls; on failure record the thrown message
(`response.status response.statusText` for a non-2xx response); the
`finally` clause lowers the loading flag. -/
def loadSnapshotComplete (st : AppState) (result : FetchResult) : AppState :=
  match result with
  | .ok data =>
      { st with snapshot := some data, toolCalls := data.tool_calls, loading := false }
  | .httpError status statusText =>
      { st with error := some (toString status ++ " " ++ statusText), loading := false }
  | .networkError message =>
      { st with error := some message, loading := false }

/-! Concrete fixtures used by counterexamples and witnesses. -/

/-- A snapshot for run `r1`, as returned by a stale fetch. -/
def snapR1 : Snapshot := { run_id := "r1" }

/-- A snapshot for run `r2`, the currently selected run. -/
def snapR2 : Snapshot := { run_id := "r2" }

/-- App state where run `r2` is selected and its snapshot is loaded, while a
fetch for the abandoned run `r1` is still in flight. -/
def stRaceC2 : AppState :=
  { initialAppState with selectedRun := "r2", snapshot := some snapR2 }

/-- A live `mcp_tool_call` event with all five dedup-key fields populated. -/
def evDup : LiveEvent :=
  { type := some "mcp_tool_call"
    ts := some "2024-01-01T00:00:00Z"
    agent_id := .str "a1"
    tool := .str "http.get"
    target := .str "s1"
    result_summary := .str "200 OK" }

/-- An edge whose endpoints appear in none of the snapshot's collections. -/
def ghostEdge : Edge :=
  { id := "e1", source := "ghost", target := "ghost2", relation := "touches" }

/-- A snapshot whose only edge has unresolvable endpoints. -/
def ghostSnap : Snapshot := { run_id := "r0", edges := [ghostEdge] }

/-- A live event carrying a string-typed `summary` but no `result_summary`. -/
def evSummaryOnly : LiveEvent :=
  { type := some "mcp_tool_call"
    ts := some "2024-01-01T00:00:00Z"
    summary := .str "scan summary"
    result_summary := .undefined }

/-- A live event carrying a string-typed `result_summary` and a non-object
`args`. -/
def evResultOnly : LiveEvent :=
  { type := some "mcp_tool_call"
    ts := some "2024-01-01T00:00:01Z"
    result_summary := .str "done"
    args := .num 3 }

/-- A vulnerability with no severity recorded. -/
def vNoSeverity : Vulnerability := { id := "v1", ts := "2024-01-01T00:00:00Z" }

/-- A tool call whose status is absent. -/
def callNoStatus : ToolCall := { id := "c0", ts := "2024-01-01T00:00:00Z" }

/-- Terminal filters with only the "only errors" toggle active. -/
def errOnlyFilters : TerminalFilters :=
  { agentId := "all", tool := "all", onlyErrors := true, onlySuccess := false }

/-- A tool call with a target but no agent. -/
def callTargetOnly : ToolCall :=
  { id := "c1", ts := "2024-01-01T00:00:00Z", target := some "s9" }

/-- A snapshot containing no entities at all. -/
def emptySnap : Snapshot := { run_id := "r9" }

/-- App state with an agent selected and highlighted. -/
def stSelectedC9 : AppState :=
  { initialAppState with
      selectedRun := "r1"
      selectedNode := some { id := "agent:a1", entityType := EntityType.agent }
      highlightedNodeId := some "agent:a1"
      agentFilter := "a1" }

/-! Claim theorems. -/

/-- Claim C1 is refuted at a concrete run of the coordinator: after
selecting agent `a1` and then deselecting, the highlight and the
asset-target filter are back to `none`, but the agent filter (and the
terminal agent filter) still hold `"a1"` — the deselect transition does not
clear the agent filter as the claim states. -/
theorem C1_counterexample :
    (handleNodeSelect (handleNodeSelect initialAppState
        (some { id := "agent:a1", entityType := EntityType.agent })) none).agentFilter = "a1" ∧
    (handleNodeSelect (handleNodeSelect initialAppState
        (some { id := "agent:a1", entityType := EntityType.agent }))
        none).terminalFilters.agentId = "a1" ∧
    ("a1" : String) ≠ "all" ∧
    (handleNodeSelect (handleNodeSelect initialAppState
        (some { id := "agent:a1", entityType := EntityType.agent })) none).highlightedNodeId
      = none ∧
    (handleNodeSelect (handleNodeSelect initialAppState
        (some { id := "agent:a1", entityType := EntityType.agent })) none).assetTerminalFilter
      = none := by
  exact ⟨by decide, by decide, by decide, by decide, by decide⟩

/-- Claim C1, amended: deselecting (selecting null) clears the selected
node, the highlight and the asset-target filter simultaneously, but leaves
the agent filter and the terminal filters (hence the terminal agent filter)
unchanged, for every state. -/
theorem C1_deselect_amended :
    ∀ st : AppState,
      (handleNodeSelect st none).selectedNode = none ∧
      (handleNodeSelect st none).highlightedNodeId = none ∧
      (handleNodeSelect st none).assetTerminalFilter = none ∧
      (handleNodeSelect st none).agentFilter = st.agentFilter ∧
      (handleNodeSelect st none).terminalFilters = st.terminalFilters ∧
      (handleNodeSelect st none).severityFilter = st.severityFilter ∧
      (handleNodeSelect st none).snapshot = st.snapshot ∧
      (handleNodeSelect st none).toolCalls = st.toolCalls := by
  intro st
  exact ⟨rfl, rfl, rfl, rfl, rfl, rfl, rfl, rfl⟩

/-- Claim C2 is refuted at a concrete race: with run `r2` selected and its
snapshot loaded, the late completion of a fetch for abandoned run `r1` is
applied — it overwrites the store with `r1`'s snapshot even though the
response's run id differs from the selected run; no discard check exists. -/
theorem C2_counterexample :
    snapR1.run_id ≠ stRaceC2.selectedRun ∧
    (loadSnapshotComplete stRaceC2 (FetchResult.ok snapR1)).snapshot = some snapR1 ∧
    (loadSnapshotComplete stRaceC2 (FetchResult.ok snapR1)).snapshot ≠ some snapR2 := by
  refine ⟨by decide, rfl, ?_⟩
  intro h
  have h1 : snapR1 = snapR2 := Option.some.inj h
  have h2 : snapR1.run_id = snapR2.run_id := congrArg Snapshot.run_id h1
  exact absurd h2 (by decide)

/-- Claim C2, amended: the snapshot-fetch completion is applied
unconditionally — even when the response's run id differs from the currently
selected run, the response replaces the snapshot and re-seeds the tool-call
list; no run-id check discards late responses. -/
theorem C2_late_response_amended :
    ∀ (st : AppState) (snap : Snapshot),
      snap.run_id ≠ st.selectedRun →
      (loadSnapshotComplete st (FetchResult.ok snap)).snapshot = some snap ∧
      (loadSnapshotComplete st (FetchResult.ok snap)).toolCalls = snap.tool_calls ∧
      (loadSnapshotComplete st (FetchResult.ok snap)).selectedRun = st.selectedRun := by
  intro st snap _
  exact ⟨rfl, rfl, rfl⟩

/-- Witness for C2's amended theorem at the concrete race fixture. -/
theorem C2_witness :
    (loadSnapshotComplete stRaceC2 (FetchResult.ok snapR1)).snapshot = some snapR1 ∧
    (loadSnapshotComplete stRaceC2 (FetchResult.ok snapR1)).toolCalls = snapR1.tool_calls ∧
    (loadSnapshotComplete stRaceC2 (FetchResult.ok snapR1)).selectedRun =
      stRaceC2.selectedRun :=
  C2_late_response_amended stRaceC2 snapR1 (by decide)

/-- Claim C6: when a snapshot load fails — non-2xx HTTP response or network
error — the store records a human-readable error message while the
previously held snapshot and tool-call list remain unchanged, across the
whole load (loading-flag raise, then failure completion). -/
theorem C6_fetch_failure_preserves_state :
    ∀ (st : AppState) (status : Nat) (statusText message : String),
      (loadSnapshotComplete (loadSnapshotStart st) (FetchResult.httpError status statusText)).error
        = some (toString status ++ " " ++ statusText) ∧
      (loadSnapshotComplete (loadSnapshotStart st)
          (FetchResult.httpError status statusText)).snapshot = st.snapshot ∧
      (loadSnapshotComplete (loadSnapshotStart st)
          (FetchResult.httpError status statusText)).toolCalls = st.toolCalls ∧
      (loadSnapshotComplete (loadSnapshotStart st) (FetchResult.networkError message)).error
        = some message ∧
      (loadSnapshotComplete (loadSnapshotStart st)
          (FetchResult.networkError message)).snapshot = st.snapshot ∧
      (loadSnapshotComplete (loadSnapshotStart st)
          (FetchResult.networkError message)).toolCalls = st.toolCalls := by
  intro st status statusText message
  exact ⟨rfl, rfl, rfl, rfl, rfl, rfl⟩

/-- Claim C9 is refuted at a concrete state: after a run change, the
derived filters are reset, but the selected node and the highlight are left
exactly as they were — they do not become null. -/
theorem C9_counterexample :
    (handleRunChange stSelectedC9 "r2").selectedNode ≠ none ∧
    (handleRunChange stSelectedC9 "r2").highlightedNodeId ≠ none ∧
    (handleRunChange stSelectedC9 "r2").selectedNode =
      some { id := "agent:a1", entityType := EntityType.agent } ∧
    (handleRunChange stSelectedC9 "r2").highlightedNodeId = some "agent:a1" ∧
    (handleRunChange stSelectedC9 "r2").agentFilter = "all" := by
  exact ⟨by decide, by decide, by decide, by decide, by decide⟩

/-- Claim C9, amended: changing the active run resets the terminal filters
to their defaults and clears the agent filter, severity filter and
asset-target filter in the same transition, but leaves the selected node and
the highlight unchanged (they are not reset to null). -/
theorem C9_run_change_amended :
    ∀ (st : AppState) (value : String),
      (handleRunChange st value).selectedRun = value ∧
      (handleRunChange st value).terminalFilters = defaultTerminalFilters ∧
      (handleRunChange st value).agentFilter = "all" ∧
      (handleRunChange st value).severityFilter = "all" ∧
      (handleRunChange st value).assetTerminalFilter = none ∧
      (handleRunChange st value).selectedNode = st.selectedNode ∧
      (handleRunChange st value).highlightedNodeId = st.highlightedNodeId := by
  intro st value
  exact ⟨rfl, rfl, rfl, rfl, rfl, rfl, rfl⟩

/-- The dedup key of a mapped event does not depend on the generated id:
comparing any existing call against two mappings of the same event (same
clock fallback) is the same comparison. -/
theorem isSameToolCall_map_id_irrelevant (a : ToolCall) (nowIso id1 id2 : String)
    (e : LiveEvent) :
    isSameToolCall a (mapEventToToolCall nowIso id1 e) =
      isSameToolCall a (mapEventToToolCall nowIso id2 e) := rfl

/-- Two mappings of the same event (same clock fallback) match under the
dedup key. -/
theorem isSameToolCall_map_self (nowIso id1 id2 : String) (e : LiveEvent) :
    isSameToolCall (mapEventToToolCall nowIso id1 e) (mapEventToToolCall nowIso id2 e)
      = true := by
  simp [isSameToolCall, mapEventToToolCall]

/-- Claim C3: ingesting a live `mcp_tool_call` event whose dedup-key tuple
`(ts, agent_id, tool, target, result_summary)` matches an existing ToolCall
leaves the list unchanged; hence ingesting the same LiveEvent payload twice
(under the same clock fallback) is idempotent, and when no match pre-exists
the list grows by exactly one entry, not two. -/
theorem C3_dedup_idempotent :
    (∀ (current : List ToolCall) (call : ToolCall),
        current.any (fun existing => isSameToolCall existing call) = true →
        ingestToolCall current call = current) ∧
    (∀ (current : List ToolCall) (nowIso id1 id2 : String) (e : LiveEvent),
        onLiveMessage (onLiveMessage current nowIso id1 e) nowIso id2 e =
          onLiveMessage current nowIso id1 e) ∧
    (∀ (current : List ToolCall) (nowIso id1 : String) (e : LiveEvent),
        e.type = some "mcp_tool_call" →
        current.any (fun existing =>
            isSameToolCall existing (mapEventToToolCall nowIso id1 e)) = false →
        (onLiveMessage current nowIso id1 e).length = current.length + 1) := by
  refine ⟨?_, ?_, ?_⟩
  · intro current call h
    simp [ingestToolCall, h]
  · intro current nowIso id1 id2 e
    by_cases ht : e.type = some "mcp_tool_call"
    · simp only [onLiveMessage, ht, beq_self_eq_true, if_true]
      cases h1 : current.any
          (fun existing => isSameToolCall existing (mapEventToToolCall nowIso id1 e)) with
      | false =>
          have hstep : ingestToolCall current (mapEventToToolCall nowIso id1 e) =
              current ++ [mapEventToToolCall nowIso id1 e] := by
            simp [ingestToolCall, h1]
          rw [hstep]
          simp [ingestToolCall, List.any_append, isSameToolCall_map_self]
      | true =>
          have hstep : ingestToolCall current (mapEventToToolCall nowIso id1 e) = current := by
            simp [ingestToolCall, h1]
          rw [hstep]
          have h2 : current.any
              (fun existing => isSameToolCall existing (mapEventToToolCall nowIso id2 e))
              = true := h1
          simp [ingestToolCall, h2]
    · simp [onLiveMessage, beq_iff_eq, ht]
  · intro current nowIso id1 e ht h
    simp [onLiveMessage, ht, ingestToolCall, h]

/-- Witness for C3 at a concrete event: ingesting `evDup` into the empty
list grows it by exactly one entry. -/
theorem C3_witness :
    (onLiveMessage [] "2024-01-01T00:00:05Z" "live-a" evDup).length =
      ([] : List ToolCall).length + 1 :=
  C3_dedup_idempotent.2.2 [] "2024-01-01T00:00:05Z" "live-a" evDup rfl rfl

/-- Claim C5 is refuted at a concrete event: `evSummaryOnly` carries a
string-typed `summary` field, yet the mapped ToolCall's `summary` is absent
— the mapping reads `event.result_summary`, never `event.summary`. -/
theorem C5_counterexample :
    evSummaryOnly.summary = JsVal.str "scan summary" ∧
    (mapEventToToolCall "t0" "live-1" evSummaryOnly).summary = none := by
  exact ⟨rfl, rfl⟩

/-- Claim C5, amended: the mapping copies the event's `result_summary` into
both the ToolCall's `summary` and its `result_summary` when string-typed
(the event's own `summary` field is never read, so `summary` always equals
`result_summary`), and defaults `args` to an empty mapping when the event's
`args` is not a (truthy) object. -/
theorem C5_map_event_amended :
    ∀ (nowIso freshId : String) (e : LiveEvent),
      (∀ r : String, e.result_summary = JsVal.str r →
          (mapEventToToolCall nowIso freshId e).summary = some r ∧
          (mapEventToToolCall nowIso freshId e).result_summary = some r) ∧
      (e.result_summary.asString = none →
          (mapEventToToolCall nowIso freshId e).summary = none ∧
          (mapEventToToolCall nowIso freshId e).result_summary = none) ∧
      ((mapEventToToolCall nowIso freshId e).summary =
          (mapEventToToolCall nowIso freshId e).result_summary) ∧
      (e.args.asTruthyObject = none → (mapEventToToolCall nowIso freshId e).args = []) ∧
      (∀ fields, e.args = JsVal.obj fields →
          (mapEventToToolCall nowIso freshId e).args = fields) := by
  intro nowIso freshId e
  refine ⟨?_, ?_, rfl, ?_, ?_⟩
  · intro r hr
    constructor <;> simp [mapEventToToolCall, hr, JsVal.asString]
  · intro h
    constructor <;> simp [mapEventToToolCall, h]
  · intro h
    simp [mapEventToToolCall, h]
  · intro fields h
    simp [mapEventToToolCall, h, JsVal.asTruthyObject]

/-- Witness for C5's amended theorem at a concrete event: `evResultOnly`'s
string `result_summary` lands in `summary`, and its numeric `args` defaults
to the empty mapping. -/
theorem C5_witness :
    (mapEventToToolCall "t1" "live-2" evResultOnly).summary = some "done" ∧
    (mapEventToToolCall "t1" "live-2" evResultOnly).result_summary = some "done" ∧
    (mapEventToToolCall "t1" "live-2" evResultOnly).args = [] := by
  have h := C5_map_event_amended "t1" "live-2" evResultOnly
  exact ⟨(h.1 "done" rfl).1, (h.1 "done" rfl).2, h.2.2.2.1 rfl⟩

/-- Claim C4 is refuted at a concrete snapshot: `ghostSnap`'s only edge has
endpoints resolving to none of the three collections, yet the edge is NOT
dropped from the rendered graph — the unresolved raw ids pass through the
truthiness filter unchanged. -/
theorem C4_counterexample :
    ghostSnap.agents = [] ∧ ghostSnap.assets = [] ∧ ghostSnap.vulnerabilities = [] ∧
    projectEdges ghostSnap ≠ [] ∧
    projectEdges ghostSnap =
      [{ id := "e1", source := "ghost", target := "ghost2", label := "touches" }] := by
  exact ⟨rfl, rfl, rfl, by decide, by decide⟩

/-- Claim C4, amended: each edge endpoint is rewritten by resolving it
against the agent, vulnerability and asset id sets in that precedence order
(agent first, then vulnerability, then asset); an endpoint resolving to none
of the three is left as the raw id, and an edge is dropped only when a
rewritten endpoint is the empty string — an edge with a non-empty
unresolvable endpoint stays in the rendered graph (unprefixed); the
Snapshot's own edge data is untouched by the projection. -/
theorem C4_edge_projection_amended :
    (∀ (snap : Snapshot) (id : String),
        snap.agents.any (fun a => a.id == id) = true →
        prefixId snap id = "agent:" ++ id) ∧
    (∀ (snap : Snapshot) (id : String),
        snap.agents.any (fun a => a.id == id) = false →
        snap.vulnerabilities.any (fun v => v.id == id) = true →
        prefixId snap id = "vuln:" ++ id) ∧
    (∀ (snap : Snapshot) (id : String),
        snap.agents.any (fun a => a.id == id) = false →
        snap.vulnerabilities.any (fun v => v.id == id) = false →
        snap.assets.any (fun a => a.id == id) = true →
        prefixId snap id = "asset:" ++ id) ∧
    (∀ (snap : Snapshot) (id : String),
        snap.agents.any (fun a => a.id == id) = false →
        snap.vulnerabilities.any (fun v => v.id == id) = false →
        snap.assets.any (fun a => a.id == id) = false →
        prefixId snap id = id) ∧
    (∀ (snap : Snapshot) (e : Edge), e ∈ snap.edges →
        prefixId snap e.source ≠ "" → prefixId snap e.target ≠ "" →
        ({ id := e.id, source := prefixId snap e.source, target := prefixId snap e.target,
           label := e.label.getD e.relation } : EdgeElement) ∈ projectEdges snap) := by
  refine ⟨?_, ?_, ?_, ?_, ?_⟩
  · intro snap id h
    simp [prefixId, h]
  · intro snap id h1 h2
    simp [prefixId, h1, h2]
  · intro snap id h1 h2 h3
    simp [prefixId, h1, h2, h3]
  · intro snap id h1 h2 h3
    simp [prefixId, h1, h2, h3]
  · intro snap e he hs htg
    unfold projectEdges
    refine List.mem_filter.mpr ⟨List.mem_map.mpr ⟨e, he, rfl⟩, ?_⟩
    simp [truthyString, hs, htg]

/-- Witness for C4's amended theorem at the concrete ghost snapshot: the
edge with unresolvable endpoints is a member of the rendered edge list. -/
theorem C4_witness :
    ({ id := ghostEdge.id, source := prefixId ghostSnap ghostEdge.source,
       target := prefixId ghostSnap ghostEdge.target,
       label := ghostEdge.label.getD ghostEdge.relation } : EdgeElement)
      ∈ projectEdges ghostSnap :=
  C4_edge_projection_amended.2.2.2.2 ghostSnap ghostEdge (by decide) (by decide) (by decide)

/-- The classes of a projected vulnerability node are determined by the fade
decision on its already-lower-cased, "low"-defaulted severity. -/
theorem projectVulnNode_classes (f : String) (v : Vulnerability) :
    (projectVulnNode f v).classes =
      if shouldFadeVuln f (some (vulnNodeSeverity v)) then "vuln faded" else "vuln" := by
  by_cases h : shouldFadeVuln f (some (vulnNodeSeverity v)) = true
  · simp [projectVulnNode, h]
  · simp only [Bool.not_eq_true] at h
    simp [projectVulnNode, h]

/-- `shouldFadeVuln` on a present severity: fade exactly when the filter is
not "all" and the lower-cased severity differs from it. -/
theorem shouldFadeVuln_some (f s : String) :
    shouldFadeVuln f (some s) = (f != "all" && strToLower s != f) := by
  by_cases h : f = "all" <;> simp [shouldFadeVuln, h]

/-- Claim C7 is refuted at a concrete vulnerability: with the filter set to
"unknown", a vulnerability with missing severity is faded by the graph view
(its projected severity defaults to "low", not "unknown"), even though the
standalone `shouldFadeVuln` helper would have passed it. -/
theorem C7_counterexample :
    vNoSeverity.severity = none ∧
    (projectVulnNode "unknown" vNoSeverity).classes = "vuln faded" ∧
    shouldFadeVuln "unknown" none = false := by
  exact ⟨rfl, by decide, by decide⟩

/-- Claim C7, amended: the graph view's severity filter lower-cases the
severity but defaults a missing severity to "low", not "unknown" (the
"unknown" default inside `shouldFadeVuln` is unreachable on the graph path,
which always passes a present, pre-defaulted severity): with filter "all"
every vulnerability passes; otherwise exactly those whose normalized
severity (defaulting to "low" when absent) equals the filter pass. -/
theorem C7_severity_filter_amended :
    (∀ (f : String) (v : Vulnerability), f = "all" →
        (projectVulnNode f v).classes = "vuln") ∧
    (∀ (f : String) (v : Vulnerability), f ≠ "all" →
        ((projectVulnNode f v).classes = "vuln" ↔
          strToLower (vulnNodeSeverity v) = f)) ∧
    (∀ (f : String) (v : Vulnerability), f ≠ "all" → v.severity = none →
        ((projectVulnNode f v).classes = "vuln" ↔ f = "low")) ∧
    (∀ f : String, shouldFadeVuln f none = (f != "all" && "unknown" != f)) := by
  have hclasses : ∀ (f : String) (v : Vulnerability), f ≠ "all" →
      ((projectVulnNode f v).classes = "vuln" ↔ strToLower (vulnNodeSeverity v) = f) := by
    intro f v hf
    rw [projectVulnNode_classes, shouldFadeVuln_some]
    by_cases hc : strToLower (vulnNodeSeverity v) = f
    · simp [hc, hf]
    · have : (f != "all" && strToLower (vulnNodeSeverity v) != f) = true := by
        simp [hf, hc]
      rw [this]
      simp [hc]
  refine ⟨?_, hclasses, ?_, ?_⟩
  · intro f v hf
    rw [projectVulnNode_classes, shouldFadeVuln_some]
    simp [hf]
  · intro f v hf hsev
    have h := hclasses f v hf
    have hlow : vulnNodeSeverity v = "low" := by simp [vulnNodeSeverity, hsev]
    rw [hlow] at h
    have : strToLower "low" = "low" := rfl
    rw [this] at h
    exact h.trans eq_comm
  · intro f
    by_cases h : f = "all" <;> simp [shouldFadeVuln, h]

/-- Witness for C7's amended theorem at concrete inputs: with filter
"unknown", the severity-less vulnerability passes exactly when
"unknown" = "low", i.e. never. -/
theorem C7_witness :
    ((projectVulnNode "unknown" vNoSeverity).classes = "vuln" ↔ ("unknown" : String) = "low") :=
  C7_severity_filter_amended.2.2.1 "unknown" vNoSeverity (by decide) rfl

/-- The terminal filter predicate passes exactly when all four sequential
rejection conditions are false. -/
theorem passesTerminalFilters_true_iff (filters : TerminalFilters) (call : ToolCall) :
    passesTerminalFilters filters call = true ↔
      ((filters.agentId != "all" && call.agent_id != some filters.agentId) = false ∧
       (filters.tool != "all" && call.tool != some filters.tool) = false ∧
       (filters.onlyErrors && !(isErrorCall call)) = false ∧
       (filters.onlySuccess && !(isSuccessCall call)) = false) := by
  unfold passesTerminalFilters
  cases h1 : (filters.agentId != "all" && call.agent_id != some filters.agentId) <;>
    cases h2 : (filters.tool != "all" && call.tool != some filters.tool) <;>
      cases h3 : (filters.onlyErrors && !(isErrorCall call)) <;>
        cases h4 : (filters.onlySuccess && !(isSuccessCall call)) <;>
          simp [h1, h2, h3, h4]

/-- Claim C8: a ToolCall classifies as error exactly when its lower-cased
status is non-empty and neither "ok" nor "success", as success exactly when
it is "ok" or "success"; an absent status is neither, and such a call is
excluded from the filtered list whenever either toggle is active; activating
both toggles yields the intersection of the two single-toggle results. -/
theorem C8_status_filter :
    (∀ call : ToolCall,
        (isErrorCall call = true ↔
          (normalizedStatus call ≠ "" ∧ normalizedStatus call ≠ "ok" ∧
            normalizedStatus call ≠ "success"))) ∧
    (∀ call : ToolCall,
        (isSuccessCall call = true ↔
          (normalizedStatus call = "ok" ∨ normalizedStatus call = "success"))) ∧
    (∀ call : ToolCall, call.status = none →
        isErrorCall call = false ∧ isSuccessCall call = false) ∧
    (∀ (filters : TerminalFilters) (calls : List ToolCall) (call : ToolCall),
        call.status = none →
        (filters.onlyErrors = true ∨ filters.onlySuccess = true) →
        call ∉ filteredCalls filters calls) ∧
    (∀ (filters : TerminalFilters) (calls : List ToolCall) (call : ToolCall),
        (call ∈ filteredCalls { filters with onlyErrors := true, onlySuccess := true } calls ↔
          (call ∈ filteredCalls { filters with onlyErrors := true, onlySuccess := false } calls ∧
            call ∈ filteredCalls { filters with onlyErrors := false, onlySuccess := true } calls))) := by
  have hnone : ∀ call : ToolCall, call.status = none →
      isErrorCall call = false ∧ isSuccessCall call = false := by
    intro call h
    constructor <;> simp [isErrorCall, isSuccessCall, normalizedStatus, h, strToLower]
  refine ⟨?_, ?_, hnone, ?_, ?_⟩
  · intro call
    simp [isErrorCall, and_assoc]
  · intro call
    simp [isSuccessCall]
  · intro filters calls call hstat htog hmem
    have hp := (List.mem_filter.mp hmem).2
    rw [passesTerminalFilters_true_iff] at hp
    obtain ⟨herr, hsucc⟩ := hnone call hstat
    rcases htog with h | h
    · have := hp.2.2.1
      rw [h, herr] at this
      simp at this
    · have := hp.2.2.2
      rw [h, hsucc] at this
      simp at this
  · intro filters calls call
    constructor
    · intro hmem
      obtain ⟨hin, hp⟩ := List.mem_filter.mp hmem
      rw [passesTerminalFilters_true_iff] at hp
      obtain ⟨h1, h2, h3, h4⟩ := hp
      constructor <;> refine List.mem_filter.mpr ⟨hin, ?_⟩ <;>
        rw [passesTerminalFilters_true_iff]
      · exact ⟨h1, h2, h3, by simp⟩
      · exact ⟨h1, h2, by simp, h4⟩
    · rintro ⟨hmemE, hmemS⟩
      obtain ⟨hin, hpE⟩ := List.mem_filter.mp hmemE
      obtain ⟨-, hpS⟩ := List.mem_filter.mp hmemS
      rw [passesTerminalFilters_true_iff] at hpE hpS
      refine List.mem_filter.mpr ⟨hin, ?_⟩
      rw [passesTerminalFilters_true_iff]
      exact ⟨hpE.1, hpE.2.1, hpE.2.2.1, hpS.2.2.2⟩

/-- Witness for C8 at a concrete call: a status-less ToolCall is excluded
from the filtered list when the "only errors" toggle is active. -/
theorem C8_witness : callNoStatus ∉ filteredCalls errOnlyFilters [callNoStatus] :=
  C8_status_filter.2.2.2.1 errOnlyFilters [callNoStatus] callNoStatus rfl (Or.inl rfl)

/-- Claim C10: selecting a terminal row whose call has a (truthy) target
sets the highlight to `"asset:" + target` for every state — no check against
the snapshot's assets is made — and when the rendered graph contains no node
with that id, the highlight effect highlights no node at all (and, being a
total function, raises no error). -/
theorem C10_terminal_highlight :
    ∀ (st : AppState) (call : ToolCall) (t : String) (snap : Snapshot) (af sf : String),
      call.target = some t → t ≠ "" →
      ((handleTerminalSelect st call).highlightedNodeId = some ("asset:" ++ t) ∧
        ((∀ n ∈ projectNodes snap af sf, n.id ≠ "asset:" ++ t) →
          highlightedNodes (projectNodes snap af sf) (some ("asset:" ++ t)) = [])) := by
  intro st call t snap af sf htgt ht
  constructor
  · simp [handleTerminalSelect, truthyStr, truthyString, htgt, ht]
  · intro hno
    have hred : highlightedNodes (projectNodes snap af sf) (some ("asset:" ++ t)) =
        if ("asset:" ++ t) = "" then []
        else (projectNodes snap af sf).filter (fun n => n.id == "asset:" ++ t) := rfl
    rw [hred]
    have hne : ("asset:" ++ t) ≠ "" := by
      intro hh
      have hl : ("asset:" ++ t).length = (0 : Nat) := by rw [hh]; rfl
      rw [String.length_append] at hl
      have h6 : ("asset:" : String).length = 6 := rfl
      omega
    rw [if_neg hne]
    refine List.filter_eq_nil_iff.mpr ?_
    intro n hn
    simp [hno n hn]

/-- Witness for C10 at concrete inputs: a call targeting `s9` highlights
`asset:s9` even though the empty snapshot renders no such node, and the
highlight effect then highlights nothing. -/
theorem C10_witness :
    (handleTerminalSelect initialAppState callTargetOnly).highlightedNodeId =
      some ("asset:" ++ "s9") ∧
    highlightedNodes (projectNodes emptySnap "all" "all") (some ("asset:" ++ "s9")) = [] := by
  have h := C10_terminal_highlight initialAppState callTargetOnly "s9" emptySnap "all" "all"
    rfl (by decide)
  refine ⟨h.1, h.2 ?_⟩
  intro n hn
  simp [projectNodes, emptySnap] at hn

end StrixViz
